import Mathlib

/-
Verification of the NovaVA conversation-session continuity core.

Shallow embedding of the backend service layer (vapiService: generateTextResponse,
getChatHistory, the in-memory chatSessions map) and of the POST /conversation/text
route handler (routes/api.js). External effects are made explicit parameters:
the UUID that uuidv4() would mint (freshId), the ISO timestamp that
new Date().toISOString() would produce (now), and the outcome of the single
axios POST /chat call (callResult, success payload or failure data).
JavaScript string truthiness is modelled as "present and non-empty";
numeric float fields of config objects (temperature, stability, cost) are elided
since no logic reads them.
-/

set_option autoImplicit false

namespace NovaVA

/-- Truthiness of an optional JavaScript string: truthy exactly when it is
present and non-empty (undefined, null and the empty string are falsy). -/
def optStrTruthy : Option String → Bool
  | some s => s != ""
  | none => false

/-- The apostrophe character, used to assemble string literals of the source. -/
def apostrophe : String := String.singleton (Char.ofNat 39)

/-- One message of the assistant model prompt configuration. -/
structure AssistantModelMessage where
  role : String
  content : String
deriving DecidableEq

/-- Model section of the transient assistant configuration
(float field temperature elided; no logic reads it). -/
structure AssistantModelConfig where
  provider : String
  model : String
  maxTokens : Nat
  messages : List AssistantModelMessage
deriving DecidableEq

/-- The transient assistant configuration object (defaultAssistantConfig in the
source). The date and time interpolated into the system prompt at module load
are elided, as is the float voice configuration; no claim reads them. -/
structure AssistantConfig where
  model : AssistantModelConfig
  firstMessage : String
  recordingEnabled : Bool
  endCallMessage : String
  maxDurationSeconds : Nat
deriving DecidableEq

/-- The defaultAssistantConfig constant of the source, with the date-bearing
suffix of the system prompt elided. -/
def defaultAssistantConfig : AssistantConfig :=
  { model :=
      { provider := "openai"
        model := "gpt-4o"
        maxTokens := 200
        messages :=
          [{ role := "system"
             content := "You are NovaVA, a smart virtual assistant designed for natural, human-like conversation." }] }
    firstMessage :=
      "Hello there! I" ++ apostrophe ++ "m NovaVA, your virtual assistant. I" ++ apostrophe
        ++ "m here to chat and help you with whatever you need. What" ++ apostrophe
        ++ "s on your mind today?"
    recordingEnabled := true
    endCallMessage :=
      "It was great talking with you! Take care and feel free to reach out anytime you need assistance."
    maxDurationSeconds := 600 }

/-- The part of config.vapi the chat flow reads: defaultAssistantId is
process.env.VAPI_DEFAULT_ASSISTANT_ID or null. -/
structure VapiConfig where
  defaultAssistantId : Option String
deriving DecidableEq

/-- One record of the in-memory chatSessions map. lastChatId mirrors
response.data.id, which may be absent. -/
structure SessionData where
  sessionId : String
  lastChatId : Option String
  lastMessageAt : String
  messagesCount : Nat
  createdAt : String
deriving DecidableEq

/-- The chatSessions map, embedded as an association list keyed by session id. -/
abbrev SessionStore := List (String × SessionData)

/-- chatSessions.get: look a session id up in the store; absence is a valid
outcome, the lookup itself is total. -/
def chatSessionsGet : SessionStore → String → Option SessionData
  | [], _ => none
  | (k, v) :: rest, key => if key = k then some v else chatSessionsGet rest key

/-- chatSessions.set: upsert a record under a session id. -/
def chatSessionsSet : SessionStore → String → SessionData → SessionStore
  | [], key, val => [(key, val)]
  | (k, v) :: rest, key, val =>
    if key = k then (key, val) :: rest else (k, v) :: chatSessionsSet rest key val

/-- One entry of the output array of a provider chat response. -/
structure OutputMessage where
  role : String
  content : Option String
deriving DecidableEq

/-- The provider chat response body (response.data). output is some list exactly
when the field is present and an array; the flat content, message and response
fields are optional strings. The float cost field is elided. -/
structure VapiChatResponse where
  id : Option String
  output : Option (List OutputMessage)
  content : Option String
  message : Option String
  response : Option String
  status : Option String
deriving DecidableEq

/-- The canned fallback reply of the source, assembled so the file holds no
apostrophe character: it reads
"I m here to help! Could you please rephrase your question?" with the
apostrophe between the first two letters. -/
def fallbackReply : String :=
  "I" ++ apostrophe ++ "m here to help! Could you please rephrase your question?"

/-- The extraction chain of generateTextResponse before the fallback check:
when output is present and an array, take the first entry whose role is
assistant and use its content if truthy (the flat fields are not consulted in
this case); otherwise probe the flat content, message, response fields in
order; an empty result stands for the falsy aiResponse accumulator. -/
def extractAiRaw (d : VapiChatResponse) : String :=
  match d.output with
  | some output =>
    match output.find? (fun m => m.role == "assistant") with
    | some assistantMessage =>
      if optStrTruthy assistantMessage.content then assistantMessage.content.getD "" else ""
    | none => ""
  | none =>
    if optStrTruthy d.content then d.content.getD ""
    else if optStrTruthy d.message then d.message.getD ""
    else if optStrTruthy d.response then d.response.getD ""
    else ""

/-- The response-extraction block of generateTextResponse: the extraction chain
followed by the fallback check that substitutes the canned reply for a falsy
result. -/
def extractAiResponse (d : VapiChatResponse) : String :=
  if extractAiRaw d = "" then fallbackReply else extractAiRaw d

/-- Modelled from the spec words of claim C3: identical to extractAiRaw except
that the turn-list step selects the most recent assistant-authored entry,
i.e. the last assistant entry in chronological array order, rather than the
first. Used only to compare the spec wording with the source behaviour. -/
def extractAiRawSpecMostRecent (d : VapiChatResponse) : String :=
  match d.output with
  | some output =>
    match output.reverse.find? (fun m => m.role == "assistant") with
    | some assistantMessage =>
      if optStrTruthy assistantMessage.content then assistantMessage.content.getD "" else ""
    | none => ""
  | none =>
    if optStrTruthy d.content then d.content.getD ""
    else if optStrTruthy d.message then d.message.getD ""
    else if optStrTruthy d.response then d.response.getD ""
    else ""

/-- Modelled from the spec words of claim C3: the extraction policy with the
most-recent assistant entry, followed by the canned-fallback check. -/
def extractAiResponseSpecMostRecent (d : VapiChatResponse) : String :=
  if extractAiRawSpecMostRecent d = "" then fallbackReply else extractAiRawSpecMostRecent d

/-- The outbound chat request payload sent to POST /chat. Fields absent from
the JavaScript object literal are none. -/
structure ChatPayload where
  input : String
  previousChatId : Option String := none
  assistantId : Option String := none
  assistant : Option AssistantConfig := none
deriving DecidableEq

/-- isContinuingSession = sessionId && sessionData && sessionData.lastChatId. -/
def isContinuingSession (sessionId : Option String) (sessionData : Option SessionData) : Bool :=
  optStrTruthy sessionId &&
    (match sessionData with
     | some sd => optStrTruthy sd.lastChatId
     | none => false)

/-- currentSessionId = sessionId || uuidv4(): the caller id when truthy,
otherwise the freshly minted UUID. -/
def resolveSessionId (sessionId : Option String) (freshId : String) : String :=
  if optStrTruthy sessionId then sessionId.getD "" else freshId

/-- The payload-construction block of generateTextResponse: start from
\x7b input \x7d; on a continuing session add previousChatId from the stored
record and then, like the new-conversation branch, add assistantId when
config.vapi.defaultAssistantId is truthy and the transient assistant object
otherwise. -/
def buildChatPayload (cfg : VapiConfig) (message : String)
    (sessionData : Option SessionData) (sessionId : Option String) : ChatPayload :=
  let chatPayload : ChatPayload := { input := message }
  if isContinuingSession sessionId sessionData then
    let chatPayload := { chatPayload with previousChatId := sessionData.bind SessionData.lastChatId }
    if optStrTruthy cfg.defaultAssistantId then
      { chatPayload with assistantId := cfg.defaultAssistantId }
    else
      { chatPayload with assistant := some defaultAssistantConfig }
  else
    if optStrTruthy cfg.defaultAssistantId then
      { chatPayload with assistantId := cfg.defaultAssistantId }
    else
      { chatPayload with assistant := some defaultAssistantConfig }

/-- The outbound request payload generateTextResponse would send, as a function
of store state and call inputs. -/
def outboundPayload (cfg : VapiConfig) (store : SessionStore) (message : String)
    (sessionId : Option String) (freshId : String) : ChatPayload :=
  buildChatPayload cfg message (chatSessionsGet store (resolveSessionId sessionId freshId)) sessionId

/-- Failure data of the axios call: error.response?.data?.message when the
upstream answered with an error body, and error.message. -/
structure UpstreamFailure where
  responseDataMessage : Option String
  message : String
deriving DecidableEq

/-- The wrapped error thrown by the catch block:
"Failed to generate text response: " followed by
error.response?.data?.message || error.message. -/
def wrappedErrorMessage (err : UpstreamFailure) : String :=
  "Failed to generate text response: " ++
    (match err.responseDataMessage with
     | some m => if m = "" then err.message else m
     | none => err.message)

/-- The vapiData block of the success result (float cost elided). -/
structure VapiData where
  id : Option String
  status : Option String
deriving DecidableEq

/-- The data block of the success result of generateTextResponse. -/
structure TextResponseData where
  response : String
  sessionId : String
  chatId : Option String
  timestamp : String
  canPlayAudio : Bool
  vapiData : VapiData
deriving DecidableEq

/-- The success result of generateTextResponse. -/
structure TextResponseResult where
  success : Bool
  data : TextResponseData
  message : String
deriving DecidableEq

/-- The updated session record written after a successful turn:
lastChatId from response.data.id, messagesCount incremented from the prior
record (0 when absent, and n || 0 = n on naturals), createdAt kept when the
prior record holds a truthy one and set to now otherwise. -/
def updatedSession (currentSessionId : String) (sessionData : Option SessionData)
    (respId : Option String) (now : String) : SessionData :=
  { sessionId := currentSessionId
    lastChatId := respId
    lastMessageAt := now
    messagesCount :=
      (match sessionData with
       | some sd => sd.messagesCount
       | none => 0) + 1
    createdAt :=
      match sessionData with
      | some sd => if sd.createdAt = "" then now else sd.createdAt
      | none => now }

/-- VapiService.generateTextResponse. Explicit inputs stand for the effects:
freshId for uuidv4(), now for new Date().toISOString(), callResult for the
outcome of the single POST /chat. Returns the thrown-or-returned value
together with the chatSessions store after the call. -/
def generateTextResponse (cfg : VapiConfig) (store : SessionStore) (message : String)
    (sessionId : Option String) (freshId : String) (now : String)
    (callResult : Except UpstreamFailure VapiChatResponse) :
    Except String TextResponseResult × SessionStore :=
  let currentSessionId := resolveSessionId sessionId freshId
  let sessionData := chatSessionsGet store currentSessionId
  let chatPayload := buildChatPayload cfg message sessionData sessionId
  match callResult with
  | Except.error err => (Except.error (wrappedErrorMessage err), store)
  | Except.ok respData =>
    let aiResponse := extractAiResponse respData
    let updatedSessionData := updatedSession currentSessionId sessionData respData.id now
    ( Except.ok
        { success := true
          data :=
            { response := aiResponse
              sessionId := currentSessionId
              chatId := respData.id
              timestamp := now
              canPlayAudio := true
              vapiData := { id := respData.id, status := respData.status } }
          message := "Text response generated successfully using Vapi Chat API" },
      chatSessionsSet store currentSessionId updatedSessionData )

/-- The data block of a getChatHistory result: the empty-history shape for an
absent session, and the stored-metadata shape for a present one. -/
inductive ChatHistoryData where
  | empty (sessionId : String) (messages : List String) (totalMessages : Nat) (messagesCount : Nat)
  | found (sessionId : String) (lastChatId : Option String) (lastMessageAt : String)
      (messagesCount : Nat) (createdAt : String)
deriving DecidableEq

/-- The result of VapiService.getChatHistory. -/
structure ChatHistoryResult where
  success : Bool
  data : ChatHistoryData
  message : String
deriving DecidableEq

/-- VapiService.getChatHistory: a total map lookup; an absent session id yields
a success result with the empty-history payload, a present one yields the
stored metadata (createdAt falling back to lastMessageAt when falsy). -/
def getChatHistory (store : SessionStore) (sessionId : String) : ChatHistoryResult :=
  match chatSessionsGet store sessionId with
  | none =>
    { success := true
      data := ChatHistoryData.empty sessionId [] 0 0
      message := "No chat history found for this session" }
  | some sessionData =>
    { success := true
      data := ChatHistoryData.found sessionId sessionData.lastChatId sessionData.lastMessageAt
          sessionData.messagesCount
          (if sessionData.createdAt = "" then sessionData.lastMessageAt else sessionData.createdAt)
      message := "Chat history retrieved successfully" }

/-- JavaScript String.prototype.trim, modelled structurally: drop the
whitespace characters from both ends of the string. -/
def jsTrim (s : String) : String :=
  String.mk (((s.data.dropWhile Char.isWhitespace).reverse.dropWhile Char.isWhitespace).reverse)

/-- The message field of the POST /conversation/text body: absent, present with
a non-string value (rejected whether JS-truthy or falsy, by the !message or the
typeof check respectively), or a string. -/
inductive ReqMessage where
  | absent
  | nonString
  | str (s : String)
deriving DecidableEq

/-- The error body of a 400 validation response of the route. -/
structure ApiError where
  message : String
  statusCode : Nat
deriving DecidableEq

/-- The data block the route returns on success. -/
structure TextRouteData where
  response : String
  sessionId : String
  chatId : Option String
  timestamp : String
  type : String
  canPlayAudio : Bool
deriving DecidableEq

/-- The success body the route returns. -/
structure TextRouteSuccess where
  success : Bool
  data : TextRouteData
  message : String
deriving DecidableEq

/-- Outcome of the POST /conversation/text handler: a synchronous 400 validation
response, a success body, or a service error propagated to the error
middleware by asyncHandler. -/
inductive TextRouteResponse where
  | validationError (status : Nat) (err : ApiError)
  | ok (body : TextRouteSuccess)
  | failed (msg : String)
deriving DecidableEq

/-- The POST /conversation/text handler: validates the message (presence,
string type, non-whitespace after trimming, then the 1000-character cap)
before delegating to generateTextResponse. The final component counts upstream
invocations: 0 on the synchronous validation rejections, 1 once the service is
called. -/
def conversationTextHandler (cfg : VapiConfig) (store : SessionStore)
    (message : ReqMessage) (sessionId : Option String) (freshId : String) (now : String)
    (callResult : Except UpstreamFailure VapiChatResponse) :
    TextRouteResponse × SessionStore × Nat :=
  match message with
  | ReqMessage.str s =>
    if s = "" ∨ (jsTrim s).length = 0 then
      ( TextRouteResponse.validationError 400
          { message := "Message is required and must be a non-empty string", statusCode := 400 },
        store, 0 )
    else if s.length > 1000 then
      ( TextRouteResponse.validationError 400
          { message := "Message is too long. Maximum length is 1000 characters", statusCode := 400 },
        store, 0 )
    else
      match generateTextResponse cfg store s sessionId freshId now callResult with
      | (Except.ok r, store2) =>
        ( TextRouteResponse.ok
            { success := true
              data :=
                { response := r.data.response
                  sessionId := r.data.sessionId
                  chatId := r.data.chatId
                  timestamp := r.data.timestamp
                  type := "text"
                  canPlayAudio := r.data.canPlayAudio }
              message := "Text response generated successfully using Vapi Chat API" },
          store2, 1 )
      | (Except.error e, store2) => (TextRouteResponse.failed e, store2, 1)
  | _ =>
    ( TextRouteResponse.validationError 400
        { message := "Message is required and must be a non-empty string", statusCode := 400 },
      store, 0 )

/-- A message the validation of the route rejects: absent, non-string, empty or
whitespace-only after trimming, or longer than 1000 characters. -/
def invalidTextMessage : ReqMessage → Prop
  | ReqMessage.absent => True
  | ReqMessage.nonString => True
  | ReqMessage.str s => jsTrim s = "" ∨ 1000 < s.length

/-- The per-call inputs of one successful turn: the user message, the optional
caller session id, the UUID uuidv4() would mint, the provider response and the
timestamp. -/
structure TurnInput where
  message : String
  sessionId : Option String
  freshId : String
  resp : VapiChatResponse
  now : String
deriving DecidableEq

/-- The session id a turn resolves to and stores under. -/
def turnTarget (t : TurnInput) : String := resolveSessionId t.sessionId t.freshId

/-- Run a sequence of successful turns (each upstream call returns ok),
threading the chatSessions store. -/
def runSuccessfulTurns (cfg : VapiConfig) : List TurnInput → SessionStore → SessionStore
  | [], store => store
  | t :: ts, store =>
    runSuccessfulTurns cfg ts
      (generateTextResponse cfg store t.message t.sessionId t.freshId t.now (Except.ok t.resp)).2

/-- How many turns of the list resolve to the given session id. -/
def countTargeting (sid : String) : List TurnInput → Nat
  | [] => 0
  | t :: ts => (if turnTarget t = sid then 1 else 0) + countTargeting sid ts

/-- The first turn of the list resolving to the given session id, if any. -/
def firstTargeting (sid : String) : List TurnInput → Option TurnInput
  | [] => none
  | t :: ts => if turnTarget t = sid then some t else firstTargeting sid ts

/-- Example configuration without a preconfigured assistant id. -/
def exConfig : VapiConfig := { defaultAssistantId := none }

/-- Example stored session record with a recorded continuation token. -/
def exSession : SessionData :=
  { sessionId := "s1", lastChatId := some "chat-0", lastMessageAt := "t1",
    messagesCount := 1, createdAt := "t0" }

/-- Example store holding one session. -/
def exStore : SessionStore := [("s1", exSession)]

/-- Example provider response with one assistant entry in the output array. -/
def exChatResponse : VapiChatResponse :=
  { id := some "chat-1"
    output := some [{ role := "assistant", content := some "Hi there" }]
    content := none, message := none, response := none, status := some "done" }

/-- Example provider response whose output array holds two assistant entries in
chronological order. -/
def doubleAssistantResponse : VapiChatResponse :=
  { id := some "chat-2"
    output := some
      [{ role := "assistant", content := some "first answer" },
       { role := "assistant", content := some "second answer" }]
    content := none, message := none, response := none, status := none }

/-- Example provider response whose output array holds no assistant entry with
non-empty content, while every flat field is present and non-empty. -/
def emptyAssistantResponse : VapiChatResponse :=
  { id := some "chat-3"
    output := some
      [{ role := "user", content := some "hi" },
       { role := "assistant", content := some "" }]
    content := some "flat content value"
    message := some "flat message value"
    response := some "flat response value"
    status := none }

/-- Example first turn for session s9. -/
def exTurn1 : TurnInput :=
  { message := "Hello", sessionId := some "s9", freshId := "fresh-1",
    resp := exChatResponse, now := "2026-01-01T00:00:00.000Z" }

/-- Example second turn for session s9. -/
def exTurn2 : TurnInput :=
  { message := "And then?", sessionId := some "s9", freshId := "fresh-2",
    resp := exChatResponse, now := "2026-01-01T00:01:00.000Z" }

/-- Reading a key just written by chatSessionsSet yields the written record. -/
theorem chatSessionsGet_set_same (store : SessionStore) (key : String) (val : SessionData) :
    chatSessionsGet (chatSessionsSet store key val) key = some val := by
  induction store with
  | nil => simp [chatSessionsSet, chatSessionsGet]
  | cons hd tl ih =>
    obtain ⟨k, v⟩ := hd
    by_cases h : key = k
    · simp [chatSessionsSet, chatSessionsGet, h]
    · simp [chatSessionsSet, chatSessionsGet, h, ih]

/-- Writing one key leaves every other key of the store unchanged. -/
theorem chatSessionsGet_set_other (store : SessionStore) (key key2 : String) (val : SessionData)
    (h : key ≠ key2) :
    chatSessionsGet (chatSessionsSet store key2 val) key = chatSessionsGet store key := by
  induction store with
  | nil => simp [chatSessionsSet, chatSessionsGet, h]
  | cons hd tl ih =>
    obtain ⟨k, v⟩ := hd
    by_cases h2 : key2 = k
    · subst h2
      simp [chatSessionsSet, chatSessionsGet, h]
    · simp [chatSessionsSet, chatSessionsGet, h2, ih]

/-- A truthy optional string is present. -/
theorem optStrTruthy_isSome {o : Option String} (h : optStrTruthy o = true) : o.isSome := by
  cases o with
  | none => simp [optStrTruthy] at h
  | some s => rfl

/-- On a continuing session the stored record supplies a present token. -/
theorem isContinuingSession_bind_isSome {sessionId : Option String}
    {sessionData : Option SessionData}
    (h : isContinuingSession sessionId sessionData = true) :
    (sessionData.bind SessionData.lastChatId).isSome := by
  cases sessionData with
  | none => simp [isContinuingSession] at h
  | some sd =>
    cases hl : sd.lastChatId with
    | none => simp [isContinuingSession, optStrTruthy, hl] at h
    | some tok => simp [hl]

/-- A string has length zero exactly when it is empty. -/
theorem string_length_eq_zero_iff (s : String) : s.length = 0 ↔ s = "" := by
  constructor
  · intro h
    cases s with
    | mk data =>
      cases data with
      | nil => rfl
      | cons c cs => simp [String.length] at h
  · intro h
    subst h
    rfl

/-- The extracted reply is never the empty string: the canned fallback replaces
an empty extraction result. -/
theorem extractAiResponse_ne_empty (d : VapiChatResponse) : extractAiResponse d ≠ "" := by
  by_cases h : extractAiRaw d = ""
  · simp only [extractAiResponse, h, if_pos]
    decide
  · simpa [extractAiResponse, h] using h

/-- Claim C1: for every call to generateTextResponse with a truthy sessionId
whose stored session record has a recorded (non-empty) continuation token
lastChatId, the outbound request payload carries exactly that stored token as
its previousChatId field. -/
theorem continuing_turn_payload_carries_stored_token
    (cfg : VapiConfig) (store : SessionStore) (message freshId sid tok : String)
    (sd : SessionData) (hsid : sid ≠ "") (hget : chatSessionsGet store sid = some sd)
    (htok : sd.lastChatId = some tok) (htokne : tok ≠ "") :
    (outboundPayload cfg store message (some sid) freshId).previousChatId = some tok := by
  have hres : resolveSessionId (some sid) freshId = sid := by
    simp [resolveSessionId, optStrTruthy, hsid]
  have hcont : isContinuingSession (some sid) (some sd) = true := by
    simp [isContinuingSession, optStrTruthy, hsid, htok, htokne]
  rw [outboundPayload, hres, hget, buildChatPayload, if_pos hcont]
  by_cases hc : optStrTruthy cfg.defaultAssistantId = true <;>
    simp [hc, htok]

/-- Witness for claim C1 at a concrete continuing session. -/
theorem continuing_turn_payload_witness :
    (outboundPayload exConfig exStore "again" (some "s1") "fresh-5").previousChatId
      = some "chat-0" :=
  continuing_turn_payload_carries_stored_token exConfig exStore "again" "fresh-5" "s1" "chat-0"
    exSession (by decide) rfl rfl (by decide)

/-- Claim C2 counterexample: on a continuing turn the constructed payload holds
the continuation token and the assistant configuration at the same time, so
the either-or claim fails on the code. -/
theorem continuing_payload_has_token_and_assistant :
    (outboundPayload exConfig exStore "hello again" (some "s1") "fresh-3").previousChatId
        = some "chat-0"
  ∧ (outboundPayload exConfig exStore "hello again" (some "s1") "fresh-3").assistant
        = some defaultAssistantConfig := by
  constructor <;> rfl

/-- Claim C2 (amended): every constructed payload carries exactly one of
assistantId (when config.vapi.defaultAssistantId is truthy) or the transient
assistant configuration (otherwise); the continuation token previousChatId is
carried exactly on continuing sessions, in addition to the assistant
descriptor rather than instead of it. -/
theorem payload_token_assistant_shape (cfg : VapiConfig) (store : SessionStore)
    (message : String) (sessionId : Option String) (freshId : String) :
    ((outboundPayload cfg store message sessionId freshId).assistantId.isSome
        ∨ (outboundPayload cfg store message sessionId freshId).assistant.isSome)
  ∧ ¬((outboundPayload cfg store message sessionId freshId).assistantId.isSome
        ∧ (outboundPayload cfg store message sessionId freshId).assistant.isSome)
  ∧ ((outboundPayload cfg store message sessionId freshId).previousChatId.isSome
      ↔ isContinuingSession sessionId
          (chatSessionsGet store (resolveSessionId sessionId freshId)) = true) := by
  simp only [outboundPayload, buildChatPayload]
  by_cases hcont : isContinuingSession sessionId
      (chatSessionsGet store (resolveSessionId sessionId freshId)) = true
  · rw [if_pos hcont]
    by_cases hc : optStrTruthy cfg.defaultAssistantId = true
    · rw [if_pos hc]
      refine ⟨Or.inl (optStrTruthy_isSome hc), ?_, ?_⟩
      · rintro ⟨-, habs⟩
        simp at habs
      · simp [hcont, isContinuingSession_bind_isSome hcont]
    · rw [if_neg hc]
      refine ⟨Or.inr rfl, ?_, ?_⟩
      · rintro ⟨habs, -⟩
        simp at habs
      · simp [hcont, isContinuingSession_bind_isSome hcont]
  · rw [if_neg hcont]
    by_cases hc : optStrTruthy cfg.defaultAssistantId = true
    · rw [if_pos hc]
      refine ⟨Or.inl (optStrTruthy_isSome hc), ?_, ?_⟩
      · rintro ⟨-, habs⟩
        simp at habs
      · simp [hcont]
    · rw [if_neg hc]
      refine ⟨Or.inr rfl, ?_, ?_⟩
      · rintro ⟨habs, -⟩
        simp at habs
      · simp [hcont]

/-- Claim C3 counterexample: on an output array holding two assistant entries
in chronological order, the code extracts the first entry, not the most recent
one the claim describes. -/
theorem extraction_picks_first_not_most_recent :
    extractAiResponse doubleAssistantResponse = "first answer"
  ∧ extractAiResponseSpecMostRecent doubleAssistantResponse = "second answer"
  ∧ extractAiResponse doubleAssistantResponse
      ≠ extractAiResponseSpecMostRecent doubleAssistantResponse := by
  refine ⟨rfl, rfl, ?_⟩
  decide

/-- Claim C3 (amended): when the response has an output array, the reply is the
content of the first assistant-authored entry when that content is non-empty
(and this wins over any flat content field); when there is no output array the
flat content, message and response fields are consulted in that order; when
nothing yields a value the canned fallback reply is returned, so the reply is
never empty. -/
theorem extraction_fallback_order_amended (d : VapiChatResponse) :
    (∀ output am c, d.output = some output →
        output.find? (fun m => m.role == "assistant") = some am →
        am.content = some c → c ≠ "" → extractAiResponse d = c)
  ∧ (∀ c, d.output = none → d.content = some c → c ≠ "" → extractAiResponse d = c)
  ∧ (∀ c, d.output = none → optStrTruthy d.content = false → d.message = some c → c ≠ "" →
        extractAiResponse d = c)
  ∧ (∀ c, d.output = none → optStrTruthy d.content = false → optStrTruthy d.message = false →
        d.response = some c → c ≠ "" → extractAiResponse d = c)
  ∧ (d.output = none → optStrTruthy d.content = false → optStrTruthy d.message = false →
        optStrTruthy d.response = false → extractAiResponse d = fallbackReply)
  ∧ extractAiResponse d ≠ "" := by
  refine ⟨?_, ?_, ?_, ?_, ?_, extractAiResponse_ne_empty d⟩
  · intro output am c ho hfind hc hcne
    have ht : optStrTruthy (some c) = true := by simp [optStrTruthy, hcne]
    have hraw : extractAiRaw d = c := by
      simp [extractAiRaw, ho, hfind, hc, ht]
    simp [extractAiResponse, hraw, hcne]
  · intro c ho hc hcne
    have ht : optStrTruthy (some c) = true := by simp [optStrTruthy, hcne]
    have hraw : extractAiRaw d = c := by
      simp [extractAiRaw, ho, hc, ht]
    simp [extractAiResponse, hraw, hcne]
  · intro c ho hcontent hm hmne
    have ht : optStrTruthy (some c) = true := by simp [optStrTruthy, hmne]
    have hraw : extractAiRaw d = c := by
      simp [extractAiRaw, ho, hcontent, hm, ht]
    simp [extractAiResponse, hraw, hmne]
  · intro c ho hcontent hmessage hr hrne
    have ht : optStrTruthy (some c) = true := by simp [optStrTruthy, hrne]
    have hraw : extractAiRaw d = c := by
      simp [extractAiRaw, ho, hcontent, hmessage, hr, ht]
    simp [extractAiResponse, hraw, hrne]
  · intro ho hcontent hmessage hresponse
    have hraw : extractAiRaw d = "" := by
      simp [extractAiRaw, ho, hcontent, hmessage, hresponse]
    simp [extractAiResponse, hraw]

/-- Witness for the amended claim C3 at a concrete response carrying both an
assistant entry and a flat content field. -/
theorem extraction_fallback_order_witness :
    extractAiResponse
      { id := some "chat-4"
        output := some
          [{ role := "user", content := some "hi" },
           { role := "assistant", content := some "hello there" }]
        content := some "flat content value"
        message := none, response := none, status := none }
      = "hello there" :=
  (extraction_fallback_order_amended _).1 _ _ _ rfl rfl rfl (by decide)

/-- Claim C4: when the upstream chat call fails, generateTextResponse throws a
single wrapped error whose text carries the upstream message when one is
available, and the session store is identical before and after the call. -/
theorem upstream_failure_wrapped_and_store_unchanged
    (cfg : VapiConfig) (store : SessionStore) (message : String) (sessionId : Option String)
    (freshId now : String) (err : UpstreamFailure) :
    generateTextResponse cfg store message sessionId freshId now (Except.error err)
      = (Except.error (wrappedErrorMessage err), store)
  ∧ (∀ m, err.responseDataMessage = some m → m ≠ "" →
      wrappedErrorMessage err = "Failed to generate text response: " ++ m) := by
  constructor
  · rfl
  · intro m hm hne
    simp [wrappedErrorMessage, hm, hne]

/-- Witness for claim C4 at a concrete failed call. -/
theorem upstream_failure_wrapped_witness :
    generateTextResponse exConfig exStore "Hello" (some "s1") "fresh-4" "t2"
        (Except.error
          { responseDataMessage := some "Bad Request"
            message := "Request failed with status code 400" })
      = (Except.error "Failed to generate text response: Bad Request", exStore) := by
  have h := upstream_failure_wrapped_and_store_unchanged exConfig exStore "Hello" (some "s1")
    "fresh-4" "t2"
    { responseDataMessage := some "Bad Request"
      message := "Request failed with status code 400" }
  rw [h.1, h.2 "Bad Request" rfl (by decide)]
  rfl

/-- Claim C8: getChatHistory on a session id the store has never seen returns a
success result with the defined empty-history payload; the lookup is total and
never fails. -/
theorem getChatHistory_absent_is_empty_success (store : SessionStore) (sid : String)
    (h : chatSessionsGet store sid = none) :
    getChatHistory store sid
      = { success := true
          data := ChatHistoryData.empty sid [] 0 0
          message := "No chat history found for this session" } := by
  simp [getChatHistory, h]

/-- Witness for claim C8 at a concrete absent session id. -/
theorem getChatHistory_absent_witness :
    getChatHistory exStore "never-seen"
      = { success := true
          data := ChatHistoryData.empty "never-seen" [] 0 0
          message := "No chat history found for this session" } :=
  getChatHistory_absent_is_empty_success exStore "never-seen" rfl

/-- Claim C9: when the output field is an array holding no assistant entry with
non-empty content, the flat content, message and response fields are never
consulted and the canned fallback reply is returned. -/
theorem array_without_assistant_ignores_flat_fields (d : VapiChatResponse)
    (output : List OutputMessage) (ho : d.output = some output)
    (hno : ∀ m ∈ output, m.role = "assistant" → optStrTruthy m.content = false) :
    extractAiResponse d = fallbackReply := by
  have hraw : extractAiRaw d = "" := by
    cases hfind : output.find? (fun m => m.role == "assistant") with
    | none => simp [extractAiRaw, ho, hfind]
    | some am =>
      have hrole : am.role = "assistant" := by simpa using List.find?_some hfind
      have hm := List.mem_of_find?_eq_some hfind
      simp [extractAiRaw, ho, hfind, hno am hm hrole]
  simp [extractAiResponse, hraw]

/-- Witness for claim C9 at a concrete response whose flat fields are all
present and non-empty. -/
theorem array_without_assistant_witness :
    extractAiResponse emptyAssistantResponse = fallbackReply := by
  refine array_without_assistant_ignores_flat_fields emptyAssistantResponse _ rfl ?_
  decide

/-- Claim C10: a caller-supplied empty-string sessionId behaves exactly like an
absent one: the call is equal to the sessionId-free call, the outbound payload
never carries a continuation token, and the result sessionId is the freshly
minted identifier. -/
theorem empty_sessionId_treated_as_absent (cfg : VapiConfig) (store : SessionStore)
    (message freshId now : String) (callResult : Except UpstreamFailure VapiChatResponse) :
    generateTextResponse cfg store message (some "") freshId now callResult
      = generateTextResponse cfg store message none freshId now callResult
  ∧ (outboundPayload cfg store message (some "") freshId).previousChatId = none
  ∧ (∀ resp : VapiChatResponse, ∃ r,
      (generateTextResponse cfg store message (some "") freshId now (Except.ok resp)).1
        = Except.ok r ∧ r.data.sessionId = freshId) := by
  refine ⟨rfl, ?_, ?_⟩
  · simp [outboundPayload, buildChatPayload, isContinuingSession, optStrTruthy,
      apply_ite ChatPayload.previousChatId]
  · intro resp
    exact ⟨_, rfl, rfl⟩

/-- On a successful call, generateTextResponse returns the extracted reply
under the resolved session id and writes the updated record under that id. -/
theorem generateTextResponse_ok_components (cfg : VapiConfig) (store : SessionStore)
    (message : String) (sessionId : Option String) (freshId now : String)
    (resp : VapiChatResponse) :
    (generateTextResponse cfg store message sessionId freshId now (Except.ok resp)).1
      = Except.ok
          { success := true
            data :=
              { response := extractAiResponse resp
                sessionId := resolveSessionId sessionId freshId
                chatId := resp.id
                timestamp := now
                canPlayAudio := true
                vapiData := { id := resp.id, status := resp.status } }
            message := "Text response generated successfully using Vapi Chat API" }
  ∧ (generateTextResponse cfg store message sessionId freshId now (Except.ok resp)).2
      = chatSessionsSet store (resolveSessionId sessionId freshId)
          (updatedSession (resolveSessionId sessionId freshId)
            (chatSessionsGet store (resolveSessionId sessionId freshId)) resp.id now) :=
  ⟨rfl, rfl⟩

/-- Running further successful turns on a store already holding a session
record adds to its counter exactly the number of turns resolving to that id
and never changes its non-empty createdAt. -/
theorem runTurns_present (cfg : VapiConfig) (sid : String) (ts : List TurnInput) :
    ∀ (store : SessionStore) (sd : SessionData),
      chatSessionsGet store sid = some sd → sd.createdAt ≠ "" →
      ∃ sd2, chatSessionsGet (runSuccessfulTurns cfg ts store) sid = some sd2
        ∧ sd2.messagesCount = sd.messagesCount + countTargeting sid ts
        ∧ sd2.createdAt = sd.createdAt := by
  induction ts with
  | nil =>
    intro store sd h hc
    exact ⟨sd, h, by simp [countTargeting], rfl⟩
  | cons t ts ih =>
    intro store sd h hc
    by_cases ht : turnTarget t = sid
    · have hget2 : chatSessionsGet
          ((generateTextResponse cfg store t.message t.sessionId t.freshId t.now
            (Except.ok t.resp)).2) sid
          = some (updatedSession sid (some sd) t.resp.id t.now) := by
        rw [(generateTextResponse_ok_components cfg store t.message t.sessionId t.freshId t.now
          t.resp).2, show resolveSessionId t.sessionId t.freshId = sid from ht, h,
          chatSessionsGet_set_same]
      have hc2 : (updatedSession sid (some sd) t.resp.id t.now).createdAt ≠ "" := by
        simpa [updatedSession, hc] using hc
      obtain ⟨sd2, h2, hcount, hcreated⟩ := ih _ _ hget2 hc2
      refine ⟨sd2, h2, ?_, ?_⟩
      · rw [hcount]
        simp only [updatedSession, countTargeting, if_pos ht]
        omega
      · rw [hcreated]
        simp [updatedSession, hc]
    · have hne : sid ≠ resolveSessionId t.sessionId t.freshId := fun hEq => ht hEq.symm
      have hget2 : chatSessionsGet
          ((generateTextResponse cfg store t.message t.sessionId t.freshId t.now
            (Except.ok t.resp)).2) sid = some sd := by
        rw [(generateTextResponse_ok_components cfg store t.message t.sessionId t.freshId t.now
          t.resp).2, chatSessionsGet_set_other store sid (resolveSessionId t.sessionId t.freshId)
          _ hne, h]
      obtain ⟨sd2, h2, hcount, hcreated⟩ := ih _ _ hget2 hc
      refine ⟨sd2, h2, ?_, hcreated⟩
      rw [hcount]
      simp only [countTargeting, if_neg ht]
      omega

/-- Claim C5: starting from a store without the session, after the successful
turns of a list the stored messagesCount equals exactly the number of those
turns that resolve to the session id (so it starts at 1 on the first one, is
incremented exactly once per turn and never decreases), and createdAt is the
timestamp of the first turn resolving to the id and is never changed by the
later ones; when no turn resolves to the id, no record appears. -/
theorem turn_counter_exact (cfg : VapiConfig) (sid : String) (store : SessionStore)
    (ts : List TurnInput) (h0 : chatSessionsGet store sid = none)
    (hnow : ∀ t ∈ ts, turnTarget t = sid → t.now ≠ "") :
    (firstTargeting sid ts = none →
      chatSessionsGet (runSuccessfulTurns cfg ts store) sid = none)
  ∧ (∀ t0, firstTargeting sid ts = some t0 →
      ∃ sd, chatSessionsGet (runSuccessfulTurns cfg ts store) sid = some sd
        ∧ sd.messagesCount = countTargeting sid ts
        ∧ sd.createdAt = t0.now) := by
  induction ts generalizing store with
  | nil =>
    exact ⟨fun _ => h0, fun t0 habs => by simp [firstTargeting] at habs⟩
  | cons t ts ih =>
    by_cases ht : turnTarget t = sid
    · constructor
      · intro hfirst
        simp [firstTargeting, ht] at hfirst
      · intro t0 hfirst
        have ht0 : t = t0 := by simpa [firstTargeting, ht] using hfirst
        have hget2 : chatSessionsGet
            ((generateTextResponse cfg store t.message t.sessionId t.freshId t.now
              (Except.ok t.resp)).2) sid
            = some (updatedSession sid none t.resp.id t.now) := by
          rw [(generateTextResponse_ok_components cfg store t.message t.sessionId t.freshId t.now
            t.resp).2, show resolveSessionId t.sessionId t.freshId = sid from ht, h0,
            chatSessionsGet_set_same]
        have hc2 : (updatedSession sid none t.resp.id t.now).createdAt ≠ "" := by
          simpa [updatedSession] using hnow t (List.mem_cons_self t ts) ht
        obtain ⟨sd2, h2, hcount, hcreated⟩ := runTurns_present cfg sid ts _ _ hget2 hc2
        refine ⟨sd2, h2, ?_, ?_⟩
        · rw [hcount]
          simp only [updatedSession, countTargeting, if_pos ht]
        · simp [hcreated, ← ht0, updatedSession]
    · have hne : sid ≠ resolveSessionId t.sessionId t.freshId := fun hEq => ht hEq.symm
      have hget2 : chatSessionsGet
          ((generateTextResponse cfg store t.message t.sessionId t.freshId t.now
            (Except.ok t.resp)).2) sid = none := by
        rw [(generateTextResponse_ok_components cfg store t.message t.sessionId t.freshId t.now
          t.resp).2, chatSessionsGet_set_other store sid (resolveSessionId t.sessionId t.freshId)
          _ hne, h0]
      have hnow2 : ∀ t2 ∈ ts, turnTarget t2 = sid → t2.now ≠ "" :=
        fun t2 hmem => hnow t2 (List.mem_cons_of_mem t hmem)
      obtain ⟨ha, hb⟩ := ih _ hget2 hnow2
      constructor
      · intro hfirst
        exact ha (by simpa [firstTargeting, ht] using hfirst)
      · intro t0 hfirst
        obtain ⟨sd, hsd, hcount, hcreated⟩ := hb t0 (by simpa [firstTargeting, ht] using hfirst)
        refine ⟨sd, hsd, ?_, hcreated⟩
        rw [hcount]
        simp only [countTargeting, if_neg ht]
        omega

/-- Witness for claim C5: two successful turns on a fresh session leave a
stored counter of exactly 2 and the first turn timestamp as createdAt. -/
theorem turn_counter_witness :
    ∃ sd, chatSessionsGet (runSuccessfulTurns exConfig [exTurn1, exTurn2] []) "s9" = some sd
      ∧ sd.messagesCount = 2
      ∧ sd.createdAt = "2026-01-01T00:00:00.000Z" := by
  have h := (turn_counter_exact exConfig "s9" [] [exTurn1, exTurn2] rfl (by decide)).2
    exTurn1 (by decide)
  simpa [countTargeting, turnTarget, resolveSessionId, optStrTruthy, exTurn1, exTurn2] using h

/-- Claim C6: the text-conversation route rejects a missing, non-string, empty,
whitespace-only or over-1000-character message with a 400 validation response,
synchronously, leaving the store untouched and attempting zero upstream calls;
every message that is non-empty after trimming and at most 1000 characters
long passes validation and reaches the service exactly once. -/
theorem conversation_text_validation (cfg : VapiConfig) (store : SessionStore)
    (sessionId : Option String) (freshId now : String)
    (callResult : Except UpstreamFailure VapiChatResponse) :
    (∀ m : ReqMessage, invalidTextMessage m →
      ∃ e, conversationTextHandler cfg store m sessionId freshId now callResult
        = (TextRouteResponse.validationError 400 e, store, 0))
  ∧ (∀ s : String, jsTrim s ≠ "" → s.length ≤ 1000 →
      (conversationTextHandler cfg store (ReqMessage.str s) sessionId freshId now
        callResult).2.2 = 1) := by
  constructor
  · intro m hm
    match m with
    | ReqMessage.absent => exact ⟨_, rfl⟩
    | ReqMessage.nonString => exact ⟨_, rfl⟩
    | ReqMessage.str s =>
      have hm2 : jsTrim s = "" ∨ 1000 < s.length := hm
      by_cases hcond : s = "" ∨ (jsTrim s).length = 0
      · exact ⟨ApiError.mk "Message is required and must be a non-empty string" 400,
          by simp only [conversationTextHandler]; rw [if_pos hcond]⟩
      · have hlen : 1000 < s.length := by
          rcases hm2 with htrim | hlen
          · exact absurd (Or.inr ((string_length_eq_zero_iff (jsTrim s)).2 htrim)) hcond
          · exact hlen
        exact ⟨ApiError.mk "Message is too long. Maximum length is 1000 characters" 400,
          by simp only [conversationTextHandler]; rw [if_neg hcond,
            if_pos (by omega : s.length > 1000)]⟩
  · intro s htrim hlen
    have h1 : ¬(s = "" ∨ (jsTrim s).length = 0) := by
      rintro (h | h)
      · subst h
        exact htrim (by decide)
      · exact htrim ((string_length_eq_zero_iff (jsTrim s)).1 h)
    have h2 : ¬(s.length > 1000) := by omega
    simp only [conversationTextHandler]
    rw [if_neg h1, if_neg h2]
    rcases hgen : generateTextResponse cfg store s sessionId freshId now callResult with ⟨r, store2⟩
    cases r <;> rfl

/-- Witness for claim C6: a whitespace-only message is rejected with 400 and
zero upstream calls, while a short valid message reaches the service once. -/
theorem conversation_text_validation_witness :
    (∃ e, conversationTextHandler exConfig exStore (ReqMessage.str "   ") none "fresh-7" "t4"
        (Except.ok exChatResponse)
        = (TextRouteResponse.validationError 400 e, exStore, 0))
  ∧ (conversationTextHandler exConfig exStore (ReqMessage.str "Hello") none "fresh-7" "t4"
        (Except.ok exChatResponse)).2.2 = 1 := by
  have h := conversation_text_validation exConfig exStore none "fresh-7" "t4"
    (Except.ok exChatResponse)
  exact ⟨h.1 (ReqMessage.str "   ") (show invalidTextMessage (ReqMessage.str "   ") from
    Or.inl (by decide)), h.2 "Hello" (by decide) (by decide)⟩

/-- Claim C7: on a successful turn without a caller sessionId the result
carries the freshly minted identifier and the session is stored under it; with
a truthy caller sessionId, even one the store has never seen, the result
carries the supplied identifier and the session is stored under it. -/
theorem sessionId_minting_and_adoption (cfg : VapiConfig) (store : SessionStore)
    (message freshId now : String) (resp : VapiChatResponse) :
    (∃ r, (generateTextResponse cfg store message none freshId now (Except.ok resp)).1
        = Except.ok r ∧ r.data.sessionId = freshId)
  ∧ (chatSessionsGet
        (generateTextResponse cfg store message none freshId now (Except.ok resp)).2
        freshId).isSome = true
  ∧ (∀ sid : String, sid ≠ "" →
      (∃ r, (generateTextResponse cfg store message (some sid) freshId now (Except.ok resp)).1
          = Except.ok r ∧ r.data.sessionId = sid)
      ∧ (chatSessionsGet
            (generateTextResponse cfg store message (some sid) freshId now (Except.ok resp)).2
            sid).isSome = true) := by
  refine ⟨⟨_, rfl, rfl⟩, ?_, ?_⟩
  · rw [(generateTextResponse_ok_components cfg store message none freshId now resp).2,
      show resolveSessionId none freshId = freshId from rfl, chatSessionsGet_set_same]
    rfl
  · intro sid hsid
    have hres : resolveSessionId (some sid) freshId = sid := by
      simp [resolveSessionId, optStrTruthy, hsid]
    constructor
    · refine ⟨_, (generateTextResponse_ok_components cfg store message (some sid) freshId now
        resp).1, ?_⟩
      simp [hres]
    · rw [(generateTextResponse_ok_components cfg store message (some sid) freshId now resp).2,
        hres, chatSessionsGet_set_same]
      rfl

/-- Witness for claim C7: a caller-preselected session id the store has never
seen is adopted as the result session id. -/
theorem sessionId_minting_witness :
    ∃ r, (generateTextResponse exConfig exStore "Hello" (some "s2") "fresh-6" "t3"
        (Except.ok exChatResponse)).1 = Except.ok r ∧ r.data.sessionId = "s2" :=
  ((sessionId_minting_and_adoption exConfig exStore "Hello" "fresh-6" "t3" exChatResponse).2.2
    "s2" (by decide)).1

end NovaVA
